import Mathlib

/-!
Verification development for the KYC decisioning pipeline
(image-quality gate, document-consistency checker, decision engine,
orchestrator).  The Python sources under `src/pipeline` are shallowly
embedded: Python dictionaries become ordered association lists over a
`Val` type of JSON-like values, floats become rationals, and the
module-level `settings` singleton becomes an explicit `Settings`
record threaded through the functions that read it.  Fallible code
(the in-place string cleaning in `_mask_extracted_data`, which raises
`IndexError` on an empty string) is modelled with `Option`.
-/

/-! ### Character and string helpers (ASCII models of the Python string ops) -/

/-- ASCII decimal digit, the `\d` character class. -/
def isDigit (c : Char) : Bool := '0' ≤ c && c ≤ '9'

/-- ASCII uppercase letter, the `[A-Z]` character class. -/
def isUpperAZ (c : Char) : Bool := 'A' ≤ c && c ≤ 'Z'

/-- ASCII lowercase letter. -/
def isLowerAZ (c : Char) : Bool := 'a' ≤ c && c ≤ 'z'

/-- ASCII whitespace recognised by Python's `str.strip` / regex `\s`. -/
def isPySpace (c : Char) : Bool :=
  c == ' ' || c == '\t' || c == '\n' || c == '\r' || c == '\x0b' || c == '\x0c'

/-- Line boundary characters of `str.splitlines` (ASCII subset). -/
def isLineBreak (c : Char) : Bool :=
  c == '\n' || c == '\r' || c == '\x0b' || c == '\x0c'

/-- `str.upper` on one ASCII character. -/
def upperChar (c : Char) : Char :=
  if isLowerAZ c then Char.ofNat (c.toNat - 32) else c

/-- `str.lower` on one ASCII character. -/
def lowerChar (c : Char) : Char :=
  if isUpperAZ c then Char.ofNat (c.toNat + 32) else c

/-- Strip leading and trailing Python whitespace (`str.strip`). -/
def stripChars (cs : List Char) : List Char :=
  ((cs.dropWhile isPySpace).reverse.dropWhile isPySpace).reverse

/-- Collapse runs of whitespace to a single space (`re.sub(r"\s+", " ", _)`).
The boolean flag records whether the previous character was whitespace. -/
def collapseWsAux : Bool → List Char → List Char
  | _, [] => []
  | prev, c :: t =>
    if isPySpace c then
      if prev then collapseWsAux true t else ' ' :: collapseWsAux true t
    else c :: collapseWsAux false t

def collapseWs (cs : List Char) : List Char := collapseWsAux false cs

/-- Numeric value of a digit string. -/
def digitsToNat (cs : List Char) : Nat :=
  cs.foldl (fun acc c => 10 * acc + (c.toNat - '0'.toNat)) 0

/-- Decimal rendering of a natural number (fuel-based recursion). -/
def natReprAux : Nat → Nat → List Char
  | 0, _ => []
  | fuel + 1, n =>
    if n < 10 then [Char.ofNat (n + '0'.toNat)]
    else natReprAux fuel (n / 10) ++ [Char.ofNat (n % 10 + '0'.toNat)]

def natRepr (n : Nat) : String := ⟨natReprAux (n + 1) n⟩

def intRepr (i : Int) : String :=
  if i < 0 then "-" ++ natRepr i.natAbs else natRepr i.natAbs

/-- Abstract but injective-in-practice model of the decimal text Python
produces for a float in an f-string; only used to build reason strings. -/
def ratRepr (q : ℚ) : String :=
  if q.den = 1 then intRepr q.num else intRepr q.num ++ "/" ++ natRepr q.den

/-- Does `hay` start with `needle`? -/
def headMatches : List Char → List Char → Bool
  | [], _ => true
  | _ :: _, [] => false
  | a :: xs, b :: ys => a == b && headMatches xs ys

/-- Substring containment, the Python `needle in hay` test on strings. -/
def hasSub (needle : List Char) : List Char → Bool
  | [] => needle.isEmpty
  | c :: t => headMatches needle (c :: t) || hasSub needle t

def strContainsSub (hay needle : String) : Bool := hasSub needle.data hay.data

/-! Rational arithmetic.  `Rat.add`, `Rat.sub`, `Rat.mul` and `Rat.inv`
are `@[irreducible]` in this toolchain, which blocks kernel evaluation
of concrete instances; the embedding therefore uses the following
reducible equivalents, each proved equal to the standard operation
below (`qAdd_eq` and friends). -/

def qAdd (a b : ℚ) : ℚ := mkRat (a.num * b.den + b.num * a.den) (a.den * b.den)

def qSub (a b : ℚ) : ℚ := mkRat (a.num * b.den - b.num * a.den) (a.den * b.den)

def qMul (a b : ℚ) : ℚ := mkRat (a.num * b.num) (a.den * b.den)

/-- Division by a natural number (the only divisions the source
performs are by positive integer counts). -/
def qDivNat (a : ℚ) (n : Nat) : ℚ := mkRat a.num (a.den * n)

def qNeg (a : ℚ) : ℚ := mkRat (-a.num) a.den

def qMax (a b : ℚ) : ℚ := if a ≤ b then b else a

def qSum (l : List ℚ) : ℚ := l.foldl qAdd 0

/-- `⌊q⌋` (floor division of the numerator by the positive denominator). -/
def qFloor (q : ℚ) : ℤ := q.num.fdiv q.den

/-- Half-even ("banker's") rounding to an integer, as Python `round`. -/
def roundHalfEven (q : ℚ) : ℤ :=
  let f := qFloor q
  let r := qSub q (mkRat f 1)
  if r < mkRat 1 2 then f
  else if mkRat 1 2 < r then f + 1
  else if f % 2 = 0 then f else f + 1

/-- Python `round(x, 2)` at the rational level. -/
def round2 (q : ℚ) : ℚ := mkRat (roundHalfEven (qMul q (mkRat 100 1))) 100

theorem qAdd_eq (a b : ℚ) : qAdd a b = a + b := by
  have ha : ((a.den : ℚ)) ≠ 0 := by exact_mod_cast a.den_nz
  have hb : ((b.den : ℚ)) ≠ 0 := by exact_mod_cast b.den_nz
  have hma : a * (a.den : ℚ) = (a.num : ℚ) := by
    nth_rewrite 1 [← Rat.num_div_den a]
    exact div_mul_cancel₀ _ ha
  have hmb : b * (b.den : ℚ) = (b.num : ℚ) := by
    nth_rewrite 1 [← Rat.num_div_den b]
    exact div_mul_cancel₀ _ hb
  rw [qAdd, Rat.mkRat_eq_div]
  push_cast
  rw [div_eq_iff (mul_ne_zero ha hb)]
  linear_combination (-(b.den : ℚ)) * hma + (-(a.den : ℚ)) * hmb

theorem qSub_eq (a b : ℚ) : qSub a b = a - b := by
  have ha : ((a.den : ℚ)) ≠ 0 := by exact_mod_cast a.den_nz
  have hb : ((b.den : ℚ)) ≠ 0 := by exact_mod_cast b.den_nz
  have hma : a * (a.den : ℚ) = (a.num : ℚ) := by
    nth_rewrite 1 [← Rat.num_div_den a]
    exact div_mul_cancel₀ _ ha
  have hmb : b * (b.den : ℚ) = (b.num : ℚ) := by
    nth_rewrite 1 [← Rat.num_div_den b]
    exact div_mul_cancel₀ _ hb
  rw [qSub, Rat.mkRat_eq_div]
  push_cast
  rw [div_eq_iff (mul_ne_zero ha hb)]
  linear_combination (-(b.den : ℚ)) * hma + ((a.den : ℚ)) * hmb

theorem qMul_eq (a b : ℚ) : qMul a b = a * b := by
  have ha : ((a.den : ℚ)) ≠ 0 := by exact_mod_cast a.den_nz
  have hb : ((b.den : ℚ)) ≠ 0 := by exact_mod_cast b.den_nz
  have hma : a * (a.den : ℚ) = (a.num : ℚ) := by
    nth_rewrite 1 [← Rat.num_div_den a]
    exact div_mul_cancel₀ _ ha
  have hmb : b * (b.den : ℚ) = (b.num : ℚ) := by
    nth_rewrite 1 [← Rat.num_div_den b]
    exact div_mul_cancel₀ _ hb
  rw [qMul, Rat.mkRat_eq_div]
  push_cast
  rw [div_eq_iff (mul_ne_zero ha hb)]
  linear_combination (-(b * (b.den : ℚ))) * hma + (-(a.num : ℚ)) * hmb

theorem qDivNat_eq (a : ℚ) (n : Nat) : qDivNat a n = a / n := by
  have ha : ((a.den : ℚ)) ≠ 0 := by exact_mod_cast a.den_nz
  rw [qDivNat, Rat.mkRat_eq_div]
  push_cast
  rw [div_mul_eq_div_div, Rat.num_div_den a]

theorem qNeg_eq (a : ℚ) : qNeg a = -a := by
  rw [qNeg, Rat.mkRat_eq_div]
  push_cast
  rw [neg_div, Rat.num_div_den a]

theorem qMax_eq (a b : ℚ) : qMax a b = max a b := by
  rw [qMax, max_def]

theorem qFloor_eq (q : ℚ) : qFloor q = ⌊q⌋ := by
  rw [qFloor, Rat.floor_def, Int.fdiv_eq_ediv _ (by exact_mod_cast Nat.zero_le q.den)]

/-! ### Python-like values and ordered dictionaries -/

/-- JSON-like values held in extracted-data maps: Python `None`, `str`,
`int`/`float` (as `ℚ`), `bool`, and nested `dict`. -/
inductive Val where
  | vNone : Val
  | vStr : String → Val
  | vNum : ℚ → Val
  | vBool : Bool → Val
  | vDict : List (String × Val) → Val

open Val

/-- Python truthiness of a value. -/
def truthy : Val → Bool
  | vNone => false
  | vStr s => !s.isEmpty
  | vNum q => !(q == 0)
  | vBool b => b
  | vDict d => !d.isEmpty

mutual

/-- Structural equality of values.  (Python dict equality is
key-set based; the documents compared by the checks only hold flat
string fields, where structural equality of the ordered maps coincides.) -/
def valBEq : Val → Val → Bool
  | vNone, vNone => true
  | vStr a, vStr b => a == b
  | vNum a, vNum b => a == b
  | vBool a, vBool b => a == b
  | vDict a, vDict b => dictBEq a b
  | _, _ => false

def dictBEq : List (String × Val) → List (String × Val) → Bool
  | [], [] => true
  | (k, v) :: r, (k2, v2) :: r2 => k == k2 && valBEq v v2 && dictBEq r r2
  | _, _ => false

end

/-- Python `==`, adding the numeric `bool`/number cross-type equality. -/
def pyEq (a b : Val) : Bool :=
  match a, b with
  | vNum x, vBool y => x == (if y then 1 else 0)
  | vBool x, vNum y => (if x then 1 else 0) == y
  | _, _ => valBEq a b

/-- A Python dictionary with string keys, as an insertion-ordered
association list (first occurrence of a key is authoritative). -/
abbrev Doc := List (String × Val)

/-- Extracted data: document type → field map. -/
abbrev ExtractedData := List (String × Doc)

/-- `d.get(k)` returning `Option`. -/
def dlookup {α : Type} : List (String × α) → String → Option α
  | [], _ => none
  | (k2, v) :: rest, k => if k2 = k then some v else dlookup rest k

/-- `d.get(k, default)`. -/
def dlookupD {α : Type} (d : List (String × α)) (k : String) (dflt : α) : α :=
  (dlookup d k).getD dflt

/-- `d.get(k)` on a field map, Python `None` when the key is missing. -/
def dget (d : Doc) (k : String) : Val := dlookupD d k vNone

/-- `k in d`. -/
def hasKey {α : Type} (d : List (String × α)) (k : String) : Bool :=
  (dlookup d k).isSome

/-- `d[k] = v`: replace the first binding of `k`, or append a new one. -/
def dsetKey {α : Type} : List (String × α) → String → α → List (String × α)
  | [], k, v => [(k, v)]
  | (k2, v2) :: rest, k, v =>
    if k2 = k then (k, v) :: rest else (k2, v2) :: dsetKey rest k v

/-- `d.update(new)`. -/
def dictUpdate {α : Type} (d new : List (String × α)) : List (String × α) :=
  new.foldl (fun acc p => dsetKey acc p.1 p.2) d

/-- A present, truthy string field: the only shape the regex / date /
string-method consuming checks can process without raising.  (The
extractor's data model guarantees these fields are strings or null;
a non-string here would raise `TypeError` inside `re` / `strptime` in
the source, outside every documented behaviour.) -/
def strFieldT (d : Doc) (k : String) : Option String :=
  match dget d k with
  | vStr s => if s.isEmpty then none else some s
  | _ => none

/-! ### Configuration (`config.py`), with its documented defaults -/

structure Settings where
  FACE_MIN_CONFIDENCE : ℚ := mkRat 6 10
  MIN_IMAGE_WIDTH : Nat := 800
  MIN_IMAGE_HEIGHT : Nat := 600
  BLUR_THRESHOLD : ℚ := 100
  MIN_BRIGHTNESS : ℚ := 50
  MAX_BRIGHTNESS : ℚ := 200
  MIN_CONTRAST : ℚ := 30
  MIN_EXTRACTION_CONFIDENCE : ℚ := mkRat 7 10
  MIN_PLATE_CONFIDENCE : ℚ := mkRat 8 10
  QUALITY_THRESHOLD_PROCEED : ℚ := mkRat 8 10
  QUALITY_THRESHOLD_CAUTION : ℚ := mkRat 4 10

def defaultSettings : Settings := {}

/-! ### Dates and `datetime.strptime(_, "%d-%m-%Y")` -/

structure PyDate where
  year : Nat
  month : Nat
  day : Nat
deriving DecidableEq

/-- Strict `date` ordering. -/
def dateLt (a b : PyDate) : Bool :=
  a.year < b.year ||
    (a.year == b.year &&
      (a.month < b.month || (a.month == b.month && a.day < b.day)))

def isLeap (y : Nat) : Bool := (y % 4 == 0 && y % 100 != 0) || y % 400 == 0

def daysInMonth (y m : Nat) : Nat :=
  if m = 2 then (if isLeap y then 29 else 28)
  else if m = 4 ∨ m = 6 ∨ m = 9 ∨ m = 11 then 30
  else 31

/-- Split a character list on `'-'`. -/
def splitDash : List Char → List (List Char)
  | [] => [[]]
  | '-' :: t => [] :: splitDash t
  | c :: t =>
    match splitDash t with
    | h :: r => (c :: h) :: r
    | [] => [[c]]

/-- `datetime.strptime(s, "%d-%m-%Y")` followed by the `date`
constructor's calendar validation: day and month are 1–2 digits in
range, the year exactly 4 digits and at least 1, the day within the
month.  Any failure raises `ValueError` in the source, `none` here. -/
def parseDMY (s : String) : Option PyDate :=
  match splitDash s.data with
  | [d, m, y] =>
    let dn := digitsToNat d
    let mn := digitsToNat m
    let yn := digitsToNat y
    if (d.length == 1 || d.length == 2) && d.all isDigit &&
        1 ≤ dn && dn ≤ 31 &&
        (m.length == 1 || m.length == 2) && m.all isDigit &&
        1 ≤ mn && mn ≤ 12 &&
        y.length == 4 && y.all isDigit && 1 ≤ yn &&
        dn ≤ daysInMonth yn mn
    then some ⟨yn, mn, dn⟩ else none
  | _ => none

/-! ### `quality.py` — ImageQualityGate

The OpenCV computations (decode, grayscale statistics, edge density)
are outside the decisioning core; a decodable image is abstracted as
its dimensions together with the four grayscale statistics those
computations produce, which is exactly the information the five
boolean checks consume. -/

structure Image where
  width : Nat
  height : Nat
  /-- Laplacian variance of the grayscale image. -/
  blurScore : ℚ
  /-- Mean grayscale intensity. -/
  meanBrightness : ℚ
  /-- Grayscale standard deviation. -/
  contrastStd : ℚ
  /-- Canny edge-pixel density. -/
  edgeDensity : ℚ

structure QualityResult where
  quality : String
  risk_score : ℚ
  signals : List String
  recommended_action : String
deriving DecidableEq

namespace ImageQualityGate

/-- `check_resolution`: pass/fail with the diagnostic on failure. -/
def check_resolution (s : Settings) (img : Image) : Bool × Option String :=
  if img.width < s.MIN_IMAGE_WIDTH ∨ img.height < s.MIN_IMAGE_HEIGHT then
    (false, some ("Low resolution (" ++ natRepr img.width ++ "x" ++ natRepr img.height ++ ")"))
  else (true, none)

def check_blur (s : Settings) (img : Image) : Bool × Option String :=
  if img.blurScore < s.BLUR_THRESHOLD then
    (false, some ("Blur detected (score=" ++ ratRepr img.blurScore ++ ")"))
  else (true, none)

def check_brightness (s : Settings) (img : Image) : Bool × Option String :=
  if img.meanBrightness < s.MIN_BRIGHTNESS then
    (false, some ("Too dark (mean=" ++ ratRepr img.meanBrightness ++ ")"))
  else if img.meanBrightness > s.MAX_BRIGHTNESS then
    (false, some ("Too bright (mean=" ++ ratRepr img.meanBrightness ++ ")"))
  else (true, none)

def check_contrast (s : Settings) (img : Image) : Bool × Option String :=
  if img.contrastStd < s.MIN_CONTRAST then
    (false, some ("Low contrast (std=" ++ ratRepr img.contrastStd ++ ")"))
  else (true, none)

def check_text_likelihood (_s : Settings) (img : Image) : Bool × Option String :=
  if img.edgeDensity < 2 then (false, some "Low text likelihood")
  else (true, none)

/-- The five boolean checks, in source order. -/
def checkList (s : Settings) (img : Image) : List (Bool × Option String) :=
  [check_resolution s img, check_blur s img, check_brightness s img,
   check_contrast s img, check_text_likelihood s img]

/-- Number of the five checks that pass. -/
def passedCount (s : Settings) (img : Image) : Nat :=
  (checkList s img).countP (fun r => r.1)

/-- Failure diagnostics appended in check order. -/
def failureSignals (s : Settings) (img : Image) : List String :=
  (checkList s img).filterMap (fun r => if r.1 then none else r.2)

/-- `evaluate`: `none` models an image `cv2.imread` could not decode. -/
def evaluate (s : Settings) (img? : Option Image) : QualityResult :=
  match img? with
  | none =>
    { quality := "bad", risk_score := 0,
      signals := ["Image could not be loaded"], recommended_action := "reject" }
  | some img =>
    if img.width < 300 ∨ img.height < 300 then
      { quality := "bad", risk_score := 0,
        signals := ["Extremely low resolution"], recommended_action := "reject" }
    else
      let passed := passedCount s img
      let risk_score : ℚ := mkRat passed 5
      let tier : String × String :=
        if risk_score ≥ s.QUALITY_THRESHOLD_PROCEED then ("good", "proceed")
        else if risk_score ≥ s.QUALITY_THRESHOLD_CAUTION then ("risky", "proceed_with_caution")
        else ("bad", "reject")
      { quality := tier.1, risk_score := round2 risk_score,
        signals := failureSignals s img, recommended_action := tier.2 }

end ImageQualityGate

/-! ### `checks.py` — DocumentChecks -/

namespace DocumentChecks

/-- `normalize_text`: strip, lowercase, collapse whitespace. -/
def normalize_text (text : Option String) : String :=
  match text with
  | none => ""
  | some s => if s.isEmpty then "" else ⟨collapseWs (stripChars (s.data.map lowerChar))⟩

/-- `normalize_vehicle_number`: uppercase then keep only `[A-Z0-9]`. -/
def normalize_vehicle_number (number : Option String) : Option String :=
  match number with
  | none => none
  | some s =>
    if s.isEmpty then none
    else some ⟨(s.data.map upperChar).filter (fun c => isUpperAZ c || isDigit c)⟩

/-- `AADHAAR_REGEX = ^\d{4}\s\d{4}\s\d{4}$` (fullmatch). -/
def aadhaarRegexMatch (s : String) : Bool :=
  match s.data with
  | [a, b, c, d, s1, e, f, g, h, s2, i, j, k, l] =>
    isDigit a && isDigit b && isDigit c && isDigit d && isPySpace s1 &&
    isDigit e && isDigit f && isDigit g && isDigit h && isPySpace s2 &&
    isDigit i && isDigit j && isDigit k && isDigit l
  | _ => false

/-- `PINCODE_REGEX = ^\d{6}$` (fullmatch). -/
def pincodeRegexMatch (s : String) : Bool :=
  s.data.length == 6 && s.data.all isDigit

/-- `DL_REGEX = ^[A-Z]{2}\d{2}\s\d{11}$` (fullmatch, on the raw value). -/
def dlRegexMatch (s : String) : Bool :=
  match s.data with
  | l1 :: l2 :: d1 :: d2 :: sp :: rest =>
    isUpperAZ l1 && isUpperAZ l2 && isDigit d1 && isDigit d2 && isPySpace sp &&
    rest.length == 11 && rest.all isDigit
  | _ => false

/-- Compact DL pattern `^[A-Z]{2}\d{13}$`. -/
def dlCompactMatch (s : String) : Bool :=
  match s.data with
  | l1 :: l2 :: rest =>
    isUpperAZ l1 && isUpperAZ l2 && rest.length == 13 && rest.all isDigit
  | _ => false

/-- `INDIAN_PLATE_REGEX = ^[A-Z]{2}[0-9]{2}[A-Z]{1,2}[0-9]{1,4}$`
(fullmatch).  The letter and digit classes are disjoint, so the greedy
match is deterministic. -/
def plateRegexMatch (s : String) : Bool :=
  match s.data with
  | l1 :: l2 :: d1 :: d2 :: rest =>
    let letters := rest.takeWhile isUpperAZ
    let tail2 := rest.dropWhile isUpperAZ
    isUpperAZ l1 && isUpperAZ l2 && isDigit d1 && isDigit d2 &&
    1 ≤ letters.length && letters.length ≤ 2 &&
    tail2.all isDigit && 1 ≤ tail2.length && tail2.length ≤ 4
  | _ => false

/-- Aadhaar-number clause of `format_checks`. -/
def aadhaarNumberIssues (aadhaar_front : Doc) : List String :=
  match strFieldT aadhaar_front "aadhaar_number" with
  | some n => if aadhaarRegexMatch n then [] else ["INVALID_AADHAAR_FORMAT"]
  | none => []

/-- DOB clause of `format_checks` (`strptime(dob, "%d-%m-%Y")`). -/
def dobIssues (aadhaar_front : Doc) : List String :=
  match strFieldT aadhaar_front "date_of_birth" with
  | some dob => if (parseDMY dob).isSome then [] else ["INVALID_DOB_FORMAT"]
  | none => []

/-- Pincode clause of `format_checks`. -/
def pincodeIssues (aadhaar_back : Doc) : List String :=
  match strFieldT aadhaar_back "pincode" with
  | some p => if pincodeRegexMatch p then [] else ["INVALID_PINCODE"]
  | none => []

/-- DL-number clause of `format_checks`: masked values (containing `X`
after uppercasing) are exempt; otherwise accept the spaced format on
the raw value or the compact format on the normalised value. -/
def dlNumberIssues (dl : Doc) : List String :=
  match strFieldT dl "license_number" with
  | some dl_number =>
    if hasSub ['X'] (dl_number.data.map upperChar) then []
    else
      let norm : String :=
        ⟨(dl_number.data.map upperChar).filter (fun c => !(isPySpace c || c == '-'))⟩
      if dlRegexMatch dl_number || dlCompactMatch norm then []
      else ["INVALID_DL_FORMAT"]
  | none => []

/-- `_check_dl_expiry`: the two validity dates are checked
independently; an unparseable date is treated as not expired; if both
are absent (falsy) the single review flag is emitted. -/
def check_dl_expiry (dl_data : Doc) (today : PyDate) : List String :=
  let validity_nt := strFieldT dl_data "validity_nt"
  let validity_tr := strFieldT dl_data "validity_tr"
  let is_expired : Option String → Bool := fun date_str =>
    match date_str with
    | none => false
    | some s =>
      match parseDMY s with
      | some d => dateLt d today
      | none => false
  (if validity_nt.isSome && is_expired validity_nt then ["DL_EXPIRED_NT"] else []) ++
  (if validity_tr.isSome && is_expired validity_tr then ["DL_EXPIRED_TR"] else []) ++
  (if validity_nt.isNone && validity_tr.isNone then ["DL_EXPIRY_NOT_READABLE"] else [])

/-- Plate clause of `format_checks`. -/
def plateIssues (plate : Doc) : List String :=
  match strFieldT plate "vehicle_number" with
  | some pn =>
    match normalize_vehicle_number (some pn) with
    | some np => if plateRegexMatch np then [] else ["INVALID_PLATE_FORMAT"]
    | none => ["INVALID_PLATE_FORMAT"]
  | none => []

/-- RC clause of `format_checks`. -/
def rcIssues (rc : Doc) : List String :=
  match strFieldT rc "vehicle_number" with
  | some rn =>
    match normalize_vehicle_number (some rn) with
    | some nr => if plateRegexMatch nr then [] else ["INVALID_RC_FORMAT"]
    | none => ["INVALID_RC_FORMAT"]
  | none => []

/-- `format_checks`, issue codes in source append order. -/
def format_checks (extracted : ExtractedData) (today : PyDate) : List String :=
  let aadhaar_front := dlookupD extracted "aadhaar_front" []
  let aadhaar_back := dlookupD extracted "aadhaar_back" []
  let dl := dlookupD extracted "driving_license" []
  let plate := dlookupD extracted "vehicle_plate_photo" []
  let rc := dlookupD extracted "rc" []
  aadhaarNumberIssues aadhaar_front ++ dobIssues aadhaar_front ++
    pincodeIssues aadhaar_back ++ dlNumberIssues dl ++
    check_dl_expiry dl today ++ plateIssues plate ++ rcIssues rc

/-- `intra_document_consistency`: Aadhaar number front vs back.  The
`!=` comparison is Python equality on arbitrary values. -/
def intra_document_consistency (extracted : ExtractedData) : List String :=
  let a_front := dget (dlookupD extracted "aadhaar_front" []) "aadhaar_number"
  let a_back := dget (dlookupD extracted "aadhaar_back" []) "aadhaar_number"
  if truthy a_front && truthy a_back && !pyEq a_front a_back then
    ["AADHAAR_FRONT_BACK_MISMATCH"]
  else []

/-- `cross_document_consistency`: name, DOB, plate-vs-RC. -/
def cross_document_consistency (extracted : ExtractedData) : List String :=
  let aadhaar_front := dlookupD extracted "aadhaar_front" []
  let dl := dlookupD extracted "driving_license" []
  let name_a := strFieldT aadhaar_front "name"
  let name_d := strFieldT dl "name"
  let nameIssue :=
    if name_a.isSome && name_d.isSome &&
        !(normalize_text name_a == normalize_text name_d) then
      ["NAME_MISMATCH"]
    else []
  let dob_a := dget aadhaar_front "date_of_birth"
  let dob_d := dget dl "date_of_birth"
  let dobIssue :=
    if truthy dob_a && truthy dob_d && !pyEq dob_a dob_d then ["DOB_MISMATCH"] else []
  let plate := strFieldT (dlookupD extracted "vehicle_plate_photo" []) "vehicle_number"
  let rc := strFieldT (dlookupD extracted "rc" []) "vehicle_number"
  let plateIssue :=
    if plate.isSome && rc.isSome &&
        !(normalize_vehicle_number plate == normalize_vehicle_number rc) then
      ["PLATE_RC_MISMATCH"]
    else []
  nameIssue ++ dobIssue ++ plateIssue

/-- `plate_ocr_validation`: the structured validation tuple that the
orchestrator merges back into the plate document. -/
def plate_ocr_validation (plate_data : Doc) : Doc :=
  match strFieldT plate_data "vehicle_number" with
  | none =>
    [("plate_number", vNone), ("plate_valid", vBool false),
     ("confidence", vNum 0), ("reason", vStr "NO_PLATE_DETECTED")]
  | some pn =>
    let np : String := ⟨(pn.data.map upperChar).filter (fun c => isUpperAZ c || isDigit c)⟩
    let ok := plateRegexMatch np
    [("plate_number", vStr np), ("plate_valid", vBool ok),
     ("confidence", dlookupD plate_data "confidence" (vNum 0)),
     ("reason", vStr (if ok then "VALID" else "INVALID_FORMAT"))]

end DocumentChecks

/-! ### `decision.py` — DecisionEngine -/

namespace DecisionEngine

open DocumentChecks

/-- `mask_aadhaar`: show only the last 4 characters of the
space-stripped value; `None` for a falsy input; the sentinel for a
value whose space-stripped length is not 12. -/
def mask_aadhaar (aadhaar : String) : Val :=
  if aadhaar.isEmpty then vNone
  else
    let clean : List Char := aadhaar.data.filter (fun c => c ≠ ' ')
    if clean.length ≠ 12 then vStr "INVALID_FORMAT"
    else vStr ("XXXX XXXX " ++ (⟨clean.drop (clean.length - 4)⟩ : String))

/-- `mask_driving_license`. -/
def mask_driving_license (dl_number : String) : Val :=
  if dl_number.isEmpty then vNone
  else if dl_number.data.length > 6 then
    vStr ((⟨dl_number.data.take 2⟩ : String) ++ "XXXX" ++
      (⟨dl_number.data.drop (dl_number.data.length - 4)⟩ : String))
  else vStr "XXXX"

/-- `mask_name`: `name.strip().split()` and keep the first initial
(and the last token for multi-token names).  `split()` tokens are
never empty; with a truthy all-whitespace name the source indexes
`parts[0]` of an empty list and raises — that is the `none` case. -/
def splitWs (cs : List Char) : List (List Char) :=
  ((collapseWs (stripChars cs)).foldr
    (fun c acc =>
      match acc with
      | [] => if c == ' ' then [] else [[c]]
      | t :: r => if c == ' ' then [] :: t :: r else (c :: t) :: r) [])

def mask_name (name : String) : Option Val :=
  if name.isEmpty then some vNone
  else
    match splitWs name.data with
    | [] => none
    | [p] => some (vStr ((⟨p.take 1⟩ : String) ++ "XXXX"))
    | p :: q :: rest =>
      some (vStr ((⟨p.take 1⟩ : String) ++ "XXXX " ++
        (⟨(q :: rest).getLast (by simp)⟩ : String)))

/-- Apply a masking function that expects a (possibly null) string to
a field value: a falsy value short-circuits to `None` inside the mask
helper; a truthy non-string raises in the source (`none` here). -/
def maskStrField (f : String → Val) (v : Val) : Option Val :=
  if !truthy v then some vNone
  else match v with
    | vStr s => some (f s)
    | _ => none

def maskNameField (v : Val) : Option Val :=
  if !truthy v then some vNone
  else match v with
    | vStr s => mask_name s
    | _ => none

/-- `_clean_str`: keep the first line, strip it, collapse whitespace.
`"".splitlines()[0]` raises `IndexError`, hence `none` on `""`. -/
def cleanStr (s : String) : Option String :=
  if s.isEmpty then none
  else some ⟨collapseWs (stripChars (s.data.takeWhile (fun c => !isLineBreak c)))⟩

/-- The in-place cleaning pass over one document's string fields. -/
def cleanDoc : Doc → Option Doc
  | [] => some []
  | (k, vStr s) :: t => do
    let s2 ← cleanStr s
    let t2 ← cleanDoc t
    some ((k, vStr s2) :: t2)
  | (k, v) :: t => do
    let t2 ← cleanDoc t
    some ((k, v) :: t2)

/-- The cleaning pass over the whole extracted-data map (the mutation
`data[k] = _clean_str(v)` performed while masking). -/
def cleanExtracted : ExtractedData → Option ExtractedData
  | [] => some []
  | (dt, d) :: t => do
    let d2 ← cleanDoc d
    let t2 ← cleanExtracted t
    some ((dt, d2) :: t2)

/-- Copy a field unchanged when present (the keep-as-is loops). -/
def copyField (data : Doc) (base : Doc) (field : String) : Doc :=
  match dlookup data field with
  | some v => base ++ [(field, v)]
  | none => base

/-- Masking of one (already cleaned) document, by document type. -/
def maskDoc (doc_type : String) (data : Doc) : Option Doc :=
  if doc_type = "aadhaar_front" ∨ doc_type = "aadhaar_back" then do
    let base : Doc := []
    let base ←
      match dlookup data "name" with
      | some v => do let m ← maskNameField v; pure (base ++ [("name", m)])
      | none => pure base
    let base ←
      match dlookup data "aadhaar_number" with
      | some v => do let m ← maskStrField mask_aadhaar v; pure (base ++ [("aadhaar_number", m)])
      | none => pure base
    let base := copyField data base "gender"
    let base := copyField data base "date_of_birth"
    let base := copyField data base "year_of_birth"
    some base
  else if doc_type = "driving_license" then do
    let base : Doc := []
    let base ←
      match dlookup data "name" with
      | some v => do let m ← maskNameField v; pure (base ++ [("name", m)])
      | none => pure base
    let base ←
      match dlookup data "license_number" with
      | some v => do let m ← maskStrField mask_driving_license v; pure (base ++ [("license_number", m)])
      | none => pure base
    let base := copyField data base "date_of_birth"
    let base := copyField data base "issue_date"
    let base := copyField data base "validity_nt"
    let base := copyField data base "validity_tr"
    let base := copyField data base "issuing_authority"
    some base
  else if doc_type = "vehicle_plate_photo" ∨ doc_type = "rc" then some data
  else if doc_type = "face_match" then some data
  else
    some (data.map (fun p =>
      match p.2 with
      | vStr s => if s.data.length > 2 then (p.1, vStr ((⟨s.data.take 1⟩ : String) ++ "XXXX")) else p
      | _ => p))

/-- `_mask_extracted_data` on already cleaned data. -/
def maskExtracted : ExtractedData → Option ExtractedData
  | [] => some []
  | (dt, d) :: t => do
    let d2 ← maskDoc dt d
    let t2 ← maskExtracted t
    some ((dt, d2) :: t2)

/-- `calculate_confidence`: average of per-document risk scores minus
0.1 per issue and 0.1 per below-threshold extraction confidence
(field-wise for dict confidences; document-wise with the plate/RC
threshold chosen by substring match for scalar confidences), floored
at 0 and rounded to 2 decimals.  Python `bool` is an `int`, so boolean
confidences count as numeric. -/
def fieldConfPenalty (s : Settings) (v : Val) : ℚ :=
  match v with
  | vNum q => if q < s.MIN_EXTRACTION_CONFIDENCE then mkRat 1 10 else 0
  | vBool b => if (if b then (1 : ℚ) else 0) < s.MIN_EXTRACTION_CONFIDENCE then mkRat 1 10 else 0
  | _ => 0

def docConfPenalty (s : Settings) (doc_type : String) (doc_conf : Val) : ℚ :=
  match doc_conf with
  | vDict fields => qSum (fields.map (fun p => fieldConfPenalty s p.2))
  | vNum q =>
    let threshold :=
      if strContainsSub doc_type "plate" || strContainsSub doc_type "rc" then
        s.MIN_PLATE_CONFIDENCE
      else s.MIN_EXTRACTION_CONFIDENCE
    if q < threshold then mkRat 1 10 else 0
  | vBool b =>
    let threshold :=
      if strContainsSub doc_type "plate" || strContainsSub doc_type "rc" then
        s.MIN_PLATE_CONFIDENCE
      else s.MIN_EXTRACTION_CONFIDENCE
    if (if b then (1 : ℚ) else 0) < threshold then mkRat 1 10 else 0
  | _ => 0

def calculate_confidence (s : Settings) (quality_scores : List (String × ℚ))
    (extraction_confidences : List (String × Val)) (issues : List String) : ℚ :=
  let quality_values := quality_scores.map (fun p => p.2)
  let avg_quality : ℚ :=
    if quality_values.isEmpty then 0
    else qDivNat (qSum quality_values) quality_values.length
  let issue_penalty : ℚ := mkRat issues.length 10
  let extraction_penalty : ℚ :=
    qSum (extraction_confidences.map (fun p => docConfPenalty s p.1 p.2))
  round2 (qMax 0 (qSub avg_quality (qAdd issue_penalty extraction_penalty)))

/-- The plate evidence of `_build_response`. -/
structure PlateInfo where
  plate_number : Val
  plate_valid : Bool
  confidence : Val

structure ChecksLists where
  format : List String
  intra : List String
  cross : List String

structure Signals where
  quality : List (String × QualityResult)
  issues : List String
  checks : ChecksLists
  plate : Option PlateInfo
  face_match : Option Doc
  suggested_reuploads : List String

structure Response where
  status : String
  confidence : ℚ
  reasons : List String
  signals : Signals
  extracted : ExtractedData

/-- The per-document extraction confidences collected by
`_build_response` (from the cleaned data). -/
def extractionConfidences (cleaned : ExtractedData) : List (String × Val) :=
  cleaned.filterMap (fun p =>
    if hasKey p.2 "confidence" then some (p.1, dget p.2 "confidence") else none)

/-- The plate info of `_build_response` (from the cleaned data). -/
def plateInfoOf (cleaned : ExtractedData) : Option PlateInfo :=
  (dlookup cleaned "vehicle_plate_photo").map (fun plate_data =>
    { plate_number := dget plate_data "vehicle_number",
      plate_valid := truthy (dget plate_data "vehicle_number"),
      confidence := dlookupD plate_data "confidence" (vNum 0) })

/-- `_build_response`.  Masking runs first and mutates the extracted
data in place (string cleaning); the plate info, extraction
confidences and face-match echo are read from the mutated map.  The
`confidence` argument supplied by the policy rule is ignored: the
final confidence is always recomputed. -/
def build_response (s : Settings) (status : String) (confidence : ℚ)
    (reasons : List String) (issues : List String)
    (quality_results : List (String × QualityResult))
    (extracted_data : ExtractedData)
    (format_issues intra_issues cross_issues : List String)
    (suggested_reuploads : List String) : Option Response :=
  (cleanExtracted extracted_data).bind (fun cleaned =>
    (maskExtracted cleaned).map (fun masked_extracted =>
      let quality_scores := quality_results.map (fun p => (p.1, p.2.risk_score))
      let final_confidence :=
        calculate_confidence s quality_scores (extractionConfidences cleaned) issues
      { status := status
        confidence := final_confidence
        reasons := reasons
        signals :=
          { quality := quality_results
            issues := issues
            checks := { format := format_issues, intra := intra_issues, cross := cross_issues }
            plate := plateInfoOf cleaned
            face_match := dlookup cleaned "face_match"
            suggested_reuploads := suggested_reuploads }
        extracted := masked_extracted }))

/-- Python `float(x)` on a decimal string (sign, integer part,
fraction, exponent); `none` models the `ValueError` the bare `except`
catches. -/
def pow10 (e : Int) : ℚ :=
  if e < 0 then mkRat 1 (10 ^ e.natAbs) else mkRat (10 ^ e.natAbs) 1

def parseFloatDigits (intPart fracPart : List Char) (exp : Int) : ℚ :=
  qMul (qAdd (mkRat (digitsToNat intPart) 1)
        (mkRat (digitsToNat fracPart) (10 ^ fracPart.length)))
    (pow10 exp)

def parseFloatBody (cs : List Char) : Option ℚ :=
  let mantExp : List Char × Option (List Char) :=
    match cs.splitOn 'e' with
    | [m] =>
      match m.splitOn 'E' with
      | [m2] => (m2, none)
      | [m2, e2] => (m2, some e2)
      | _ => ([], some [])
    | [m, e] => (m, some e)
    | _ => ([], some [])
  let (mant, expPart) := mantExp
  let expVal : Option Int :=
    match expPart with
    | none => some 0
    | some e =>
      let (sgn, ds) : Int × List Char :=
        match e with
        | '+' :: t => (1, t)
        | '-' :: t => (-1, t)
        | t => (1, t)
      if !ds.isEmpty && ds.all isDigit then some (sgn * digitsToNat ds) else none
  match expVal with
  | none => none
  | some ev =>
    match mant.splitOn '.' with
    | [ip] => if !ip.isEmpty && ip.all isDigit then some (parseFloatDigits ip [] ev) else none
    | [ip, fp] =>
      if (ip.all isDigit && fp.all isDigit) && !(ip.isEmpty && fp.isEmpty) then
        some (parseFloatDigits ip fp ev)
      else none
    | _ => none

def parseFloatStr (s : String) : Option ℚ :=
  match stripChars s.data with
  | '+' :: t => parseFloatBody t
  | '-' :: t => (parseFloatBody t).map qNeg
  | t => parseFloatBody t

/-- Python `float(v)`: numbers and booleans convert, decimal strings
parse, anything else raises (caught by the bare `except`). -/
def pyFloat (v : Val) : Option ℚ :=
  match v with
  | vNum q => some q
  | vBool b => some (if b then 1 else 0)
  | vStr s => parseFloatStr s
  | _ => none

/-- The face-match confidence extraction of `make_decision`:
`float(face_match.get("confidence") or 0.0)` guarded by the dict /
key checks, with every raise collapsing to `None`. -/
def faceConf (extracted_data : ExtractedData) : Option ℚ :=
  match dlookup extracted_data "face_match" with
  | some face_match =>
    if hasKey face_match "confidence" then
      let v := dget face_match "confidence"
      pyFloat (if truthy v then v else vNum 0)
    else none
  | none => none

/-- `same_person is False`: only an explicit boolean `False` fires. -/
def samePersonIsFalse (extracted_data : ExtractedData) : Bool :=
  match dlookup extracted_data "face_match" with
  | some face_match =>
    match dlookup face_match "same_person" with
    | some (vBool false) => true
    | _ => false
  | none => false

def critical_format : List String :=
  ["INVALID_AADHAAR_FORMAT", "INVALID_DL_FORMAT",
   "INVALID_PINCODE", "AADHAAR_FRONT_BACK_MISMATCH"]

/-- Rules 3–8 of `make_decision` (everything after the two hard
rejects), shared by the two fall-through paths of the face guard. -/
def decisionTail (s : Settings) (quality_results : List (String × QualityResult))
    (extracted_data : ExtractedData)
    (format_issues intra_issues cross_issues all_issues : List String) :
    Option Response :=
  let reupload_docs :=
    (quality_results.filter (fun p => p.1 ≠ "rc" ∧ p.2.quality = "bad")).map (fun p => p.1)
  if reupload_docs ≠ [] then
    build_response s "REUPLOAD" 0
      ["Poor quality images: " ++ String.intercalate ", " reupload_docs]
      all_issues quality_results extracted_data
      format_issues intra_issues cross_issues []
  else if samePersonIsFalse extracted_data then
    build_response s "REUPLOAD" 0
      ["Face mismatch between driving license and selfie"]
      all_issues quality_results extracted_data
      format_issues intra_issues cross_issues ["selfie", "driving_license"]
  else if format_issues ≠ [] ∨ intra_issues ≠ [] then
    if (format_issues ++ intra_issues).any (fun issue => issue ∈ critical_format) then
      build_response s "REUPLOAD" (mkRat 3 10)
        ["Document format or consistency issues"]
        all_issues quality_results extracted_data
        format_issues intra_issues cross_issues []
    else
      build_response s "NEEDS_REVIEW" (mkRat 5 10)
        ["Minor document issues require review"]
        all_issues quality_results extracted_data
        format_issues intra_issues cross_issues []
  else if cross_issues ≠ [] then
    build_response s "NEEDS_REVIEW" (mkRat 4 10)
      ["Cross-document inconsistencies"]
      all_issues quality_results extracted_data
      format_issues intra_issues cross_issues []
  else if "DL_EXPIRY_NOT_READABLE" ∈ all_issues then
    build_response s "NEEDS_REVIEW" (mkRat 6 10)
      ["Driving license expiry date not readable"]
      all_issues quality_results extracted_data
      format_issues intra_issues cross_issues []
  else
    build_response s "VERIFIED" (mkRat 9 10)
      ["All verification checks passed"]
      [] quality_results extracted_data
      format_issues intra_issues cross_issues []

/-- `make_decision`: the ordered v1 policy. -/
def make_decision (s : Settings) (quality_results : List (String × QualityResult))
    (extracted_data : ExtractedData)
    (format_issues intra_issues cross_issues : List String) : Option Response :=
  let all_issues := format_issues ++ intra_issues ++ cross_issues
  if "DL_EXPIRED_NT" ∈ all_issues ∨ "DL_EXPIRED_TR" ∈ all_issues then
    build_response s "REJECT" 0 ["Driving license expired"]
      all_issues quality_results extracted_data
      format_issues intra_issues cross_issues []
  else
    match faceConf extracted_data with
    | some face_conf =>
      if face_conf < s.FACE_MIN_CONFIDENCE then
        build_response s "REJECT" 0
          ["Face match confidence below threshold (" ++ ratRepr face_conf ++ ")"]
          all_issues quality_results extracted_data
          format_issues intra_issues cross_issues []
      else
        decisionTail s quality_results extracted_data
          format_issues intra_issues cross_issues all_issues
    | none =>
      decisionTail s quality_results extracted_data
        format_issues intra_issues cross_issues all_issues

end DecisionEngine

/-! ### `run_pipeline.py` — the orchestrator pieces the claims need -/

namespace Pipeline

open DocumentChecks DecisionEngine

/-- The synthetic assessment for a missing file. -/
def synthMissing : QualityResult :=
  { quality := "bad", risk_score := 0,
    signals := ["File not found"], recommended_action := "reject" }

/-- The orchestrator's downgrade of an existing-but-bad optional RC. -/
def rcDowngrade (q : QualityResult) : QualityResult :=
  { q with signals := q.signals ++ ["Optional RC skipped due to quality"],
           recommended_action := "ignore" }

/-- Step 1 of `run_pipeline`: per-document quality assessment.  Each
input entry is the document type together with the quality gate's
result when the file exists (`none` models a missing file).  Returns
the `quality_results` map and the `reupload_required` list, both in
input order. -/
def step1 : List (String × Option QualityResult) →
    List (String × QualityResult) × List String
  | [] => ([], [])
  | (doc_type, entry) :: rest =>
    let (qr, ru) := step1 rest
    match entry with
    | some quality_result =>
      if quality_result.quality = "bad" then
        if doc_type = "rc" then ((doc_type, rcDowngrade quality_result) :: qr, ru)
        else ((doc_type, quality_result) :: qr, doc_type :: ru)
      else ((doc_type, quality_result) :: qr, ru)
    | none =>
      if doc_type ≠ "rc" then ((doc_type, synthMissing) :: qr, doc_type :: ru)
      else ((doc_type, synthMissing) :: qr, ru)

/-- Step 4 of `run_pipeline`: merge the plate-OCR validation tuple
into the plate document's extracted data (an in-place `dict.update`). -/
def mergePlate (extracted_data : ExtractedData) : ExtractedData :=
  match dlookup extracted_data "vehicle_plate_photo" with
  | some plate_data =>
    dsetKey extracted_data "vehicle_plate_photo"
      (dictUpdate plate_data (plate_ocr_validation plate_data))
  | none => extracted_data

/-- Step 4.5: store the face-match result (when one was produced). -/
def addFace (extracted_data : ExtractedData) (face : Option Doc) : ExtractedData :=
  match face with
  | some face_result => dsetKey extracted_data "face_match" face_result
  | none => extracted_data

/-- The data-flow trace of steps 3–5 of `run_pipeline`: the three
checker passes run over the extracted data as it stands at step 3,
then the plate-OCR tuple is merged (step 4) and the face result stored
(step 4.5), and the decision engine consumes the merged map together
with the step-3 issue lists. -/
structure PipelineTrace where
  checkerInput : ExtractedData
  format_issues : List String
  intra_issues : List String
  cross_issues : List String
  mergedData : ExtractedData
  decision : Option Response

def run_pipeline_checks (s : Settings)
    (quality_results : List (String × QualityResult))
    (extracted_data : ExtractedData) (face_result : Option Doc)
    (today : PyDate) : PipelineTrace :=
  let format_issues := format_checks extracted_data today
  let intra_issues := intra_document_consistency extracted_data
  let cross_issues := cross_document_consistency extracted_data
  let merged := addFace (mergePlate extracted_data) face_result
  { checkerInput := extracted_data
    format_issues := format_issues
    intra_issues := intra_issues
    cross_issues := cross_issues
    mergedData := merged
    decision := make_decision s quality_results merged
      format_issues intra_issues cross_issues }

end Pipeline

/-! ### Helper lemmas -/

theorem dlookup_dsetKey {α : Type} (d : List (String × α)) (k k2 : String) (v : α) :
    dlookup (dsetKey d k v) k2 = if k = k2 then some v else dlookup d k2 := by
  induction d with
  | nil => simp [dsetKey, dlookup]
  | cons p rest ih =>
    obtain ⟨pk, pv⟩ := p
    by_cases hpk : pk = k
    · subst hpk
      simp [dsetKey, dlookup]
      by_cases hk2 : pk = k2
      · subst hk2; simp [dlookup]
      · simp [dlookup, hk2, Ne.symm hk2]
    · simp only [dsetKey, if_neg hpk]
      by_cases hk2 : pk = k2
      · subst hk2
        simp [dlookup]
        rw [if_neg (fun hkk => hpk hkk.symm)]
      · simp [dlookup, hk2, ih]

theorem dget_dsetKey_ne (d : Doc) (k k2 : String) (v : Val) (h : k ≠ k2) :
    dget (dsetKey d k v) k2 = dget d k2 := by
  simp [dget, dlookupD, dlookup_dsetKey, h]

/-- The update merged by the orchestrator touches only the four keys
of the validation tuple, never `vehicle_number`. -/
theorem dget_update_pov_vehicle_number (pd : Doc) :
    dget (dictUpdate pd (DocumentChecks.plate_ocr_validation pd)) "vehicle_number" =
      dget pd "vehicle_number" := by
  unfold DocumentChecks.plate_ocr_validation
  cases hv : strFieldT pd "vehicle_number" <;>
    simp [dictUpdate, List.foldl, dget_dsetKey_ne, show ("plate_number" : String) ≠ "vehicle_number" from by decide,
      show ("plate_valid" : String) ≠ "vehicle_number" from by decide,
      show ("confidence" : String) ≠ "vehicle_number" from by decide,
      show ("reason" : String) ≠ "vehicle_number" from by decide]

namespace DecisionEngine

/-- The response built by `_build_response`, fully characterised:
its confidence is the recomputed one, never the rule-supplied
argument. -/
theorem build_response_eq_some (s : Settings) (st : String) (conf : ℚ)
    (rs iss : List String) (qr : List (String × QualityResult))
    (e : ExtractedData) (f i c sg : List String) (r : Response)
    (h : build_response s st conf rs iss qr e f i c sg = some r) :
    ∃ cleaned masked, cleanExtracted e = some cleaned ∧
      maskExtracted cleaned = some masked ∧
      r = { status := st
            confidence := calculate_confidence s
              (qr.map (fun p => (p.1, p.2.risk_score)))
              (extractionConfidences cleaned) iss
            reasons := rs
            signals :=
              { quality := qr, issues := iss
                checks := { format := f, intra := i, cross := c }
                plate := plateInfoOf cleaned
                face_match := dlookup cleaned "face_match"
                suggested_reuploads := sg }
            extracted := masked } := by
  unfold build_response at h
  cases hc : cleanExtracted e with
  | none => rw [hc] at h; exact absurd h (by simp)
  | some cleaned =>
    rw [hc] at h
    simp only [Option.some_bind] at h
    cases hmk : maskExtracted cleaned with
    | none => rw [hmk] at h; exact absurd h (by simp)
    | some masked =>
      rw [hmk] at h
      simp only [Option.map_some', Option.some.injEq] at h
      exact ⟨cleaned, masked, rfl, hmk, h.symm⟩

/-- Projections of `build_response_eq_some` that the policy claims use. -/
theorem build_response_core (s : Settings) (st : String) (conf : ℚ)
    (rs iss : List String) (qr : List (String × QualityResult))
    (e : ExtractedData) (f i c sg : List String) (r : Response)
    (h : build_response s st conf rs iss qr e f i c sg = some r) :
    r.status = st ∧ r.reasons = rs ∧ r.signals.issues = iss ∧
      r.signals.suggested_reuploads = sg ∧
      r.signals.plate = plateInfoOf ((cleanExtracted e).getD []) ∧
      r.confidence = calculate_confidence s
        (qr.map (fun p => (p.1, p.2.risk_score)))
        (extractionConfidences ((cleanExtracted e).getD [])) iss := by
  obtain ⟨cleaned, masked, hc, hmk, hr⟩ := build_response_eq_some s st conf rs iss qr e f i c sg r h
  subst hr
  simp [hc]

/-- With no DL-expiry issue and no sub-threshold face confidence,
`make_decision` falls through to the tail rules. -/
theorem make_decision_to_tail (s : Settings) (qr : List (String × QualityResult))
    (e : ExtractedData) (f i c : List String)
    (h1 : ¬("DL_EXPIRED_NT" ∈ f ++ i ++ c ∨ "DL_EXPIRED_TR" ∈ f ++ i ++ c))
    (h2 : ∀ v, faceConf e = some v → ¬v < s.FACE_MIN_CONFIDENCE) :
    make_decision s qr e f i c = decisionTail s qr e f i c (f ++ i ++ c) := by
  unfold make_decision
  rw [if_neg h1]
  cases hfc : faceConf e with
  | none => rfl
  | some v =>
    have hv := h2 v hfc
    simp [hv]

end DecisionEngine

/-! ### Claim theorems -/

open Val DecisionEngine DocumentChecks Pipeline

/-- C1: whenever the combined issue list contains `DL_EXPIRED_NT` or
`DL_EXPIRED_TR`, `make_decision` returns status REJECT with headline
reason "Driving license expired", regardless of every other quality
result, face-match value and issue — the rule is evaluated before all
others (nothing else about the inputs is assumed). -/
theorem C1_dl_expired_rejects_first (s : Settings)
    (quality_results : List (String × QualityResult)) (extracted_data : ExtractedData)
    (format_issues intra_issues cross_issues : List String)
    (hexp : "DL_EXPIRED_NT" ∈ format_issues ++ intra_issues ++ cross_issues ∨
            "DL_EXPIRED_TR" ∈ format_issues ++ intra_issues ++ cross_issues)
    (r : Response)
    (hr : make_decision s quality_results extracted_data
            format_issues intra_issues cross_issues = some r) :
    r.status = "REJECT" ∧ r.reasons = ["Driving license expired"] := by
  unfold make_decision at hr
  rw [if_pos hexp] at hr
  have h := build_response_core _ _ _ _ _ _ _ _ _ _ _ _ hr
  exact ⟨h.1, h.2.1⟩

theorem C1_witness :
    (make_decision defaultSettings [] [] ["DL_EXPIRED_NT"] [] []).map
        (fun r => (r.status, r.reasons)) = some ("REJECT", ["Driving license expired"]) := by
  have hs : (make_decision defaultSettings [] [] ["DL_EXPIRED_NT"] [] []).isSome = true := rfl
  cases hm : make_decision defaultSettings [] [] ["DL_EXPIRED_NT"] [] [] with
  | none => rw [hm] at hs; cases hs
  | some r =>
    obtain ⟨h1, h2⟩ := C1_dl_expired_rejects_first defaultSettings [] [] ["DL_EXPIRED_NT"] [] []
      (Or.inl (by simp)) r hm
    simp [h1, h2]

/-- C2: every returned decision carries the uniformly recomputed
confidence — `calculate_confidence` applied to the per-document risk
scores, the (cleaned) extraction confidences and the response's own
issue list — and `build_response` is constant in the rule-local
confidence literal it is handed, so the literal never reaches the
response other than by coincidence of the formula. -/
theorem C2_confidence_recomputed :
    (∀ (s : Settings) (quality_results : List (String × QualityResult))
        (extracted_data : ExtractedData)
        (format_issues intra_issues cross_issues : List String) (r : Response),
      make_decision s quality_results extracted_data
          format_issues intra_issues cross_issues = some r →
      r.confidence = calculate_confidence s
        (quality_results.map (fun p => (p.1, p.2.risk_score)))
        (extractionConfidences ((cleanExtracted extracted_data).getD []))
        r.signals.issues) ∧
    (∀ (s : Settings) (st : String) (conf1 conf2 : ℚ) (rs iss : List String)
        (qr : List (String × QualityResult)) (e : ExtractedData)
        (f i c sg : List String),
      build_response s st conf1 rs iss qr e f i c sg =
        build_response s st conf2 rs iss qr e f i c sg) := by
  constructor
  · intro s qr e f i c r hr
    have key : ∀ (st : String) (conf : ℚ) (rs iss sg : List String),
        build_response s st conf rs iss qr e f i c sg = some r →
        r.confidence = calculate_confidence s
          (qr.map (fun p => (p.1, p.2.risk_score)))
          (extractionConfidences ((cleanExtracted e).getD []))
          r.signals.issues := by
      intro st conf rs iss sg h
      obtain ⟨-, -, h3, -, -, h6⟩ := build_response_core _ _ _ _ _ _ _ _ _ _ _ _ h
      rw [h3]
      exact h6
    have tail : ∀ all : List String,
        decisionTail s qr e f i c all = some r →
        r.confidence = calculate_confidence s
          (qr.map (fun p => (p.1, p.2.risk_score)))
          (extractionConfidences ((cleanExtracted e).getD []))
          r.signals.issues := by
      intro all h
      simp only [decisionTail] at h
      split at h
      · exact key _ _ _ _ _ h
      · split at h
        · exact key _ _ _ _ _ h
        · split at h
          · split at h
            · exact key _ _ _ _ _ h
            · exact key _ _ _ _ _ h
          · split at h
            · exact key _ _ _ _ _ h
            · split at h
              · exact key _ _ _ _ _ h
              · exact key _ _ _ _ _ h
    simp only [make_decision] at hr
    split at hr
    · exact key _ _ _ _ _ hr
    · split at hr
      · split at hr
        · exact key _ _ _ _ _ hr
        · exact tail _ hr
      · exact tail _ hr
  · intro s st conf1 conf2 rs iss qr e f i c sg
    rfl

theorem C2_witness :
    (make_decision defaultSettings [] [] [] [] []).map (fun r => r.confidence) =
      (make_decision defaultSettings [] [] [] [] []).map
        (fun r => calculate_confidence defaultSettings [] [] r.signals.issues) := by
  have hs : (make_decision defaultSettings [] [] [] [] []).isSome = true := rfl
  cases hm : make_decision defaultSettings [] [] [] [] [] with
  | none => rw [hm] at hs; cases hs
  | some r =>
    have h := C2_confidence_recomputed.1 defaultSettings [] [] [] [] [] r hm
    simp only [Option.map_some']
    rw [h]
    rfl

/-- A numeric `confidence` entry in the face-match dict is extracted
verbatim (`x or 0.0` collapses a zero to `0.0`, which is the same
rational). -/
theorem faceConf_of_num (e : ExtractedData) (fm : Doc) (v : ℚ)
    (hfm : dlookup e "face_match" = some fm)
    (hv : dlookup fm "confidence" = some (vNum v)) :
    faceConf e = some v := by
  have hget : dget fm "confidence" = vNum v := by
    rw [dget, dlookupD, hv]; rfl
  have hk : hasKey fm "confidence" = true := by
    rw [hasKey, hv]; rfl
  unfold faceConf
  rw [hfm]
  simp only [hk, if_true, hget]
  by_cases hz : v = 0
  · subst hz
    simp [truthy, pyFloat]
  · simp [truthy, hz, pyFloat]

/-- C4: with no DL-expiry issue present, a face-match dict whose
numeric `confidence` is below the configured `FACE_MIN_CONFIDENCE`
forces status REJECT, with the numeric value embedded in the reason —
whatever the quality results and however empty the issue lists are. -/
theorem C4_face_below_threshold_rejects (s : Settings)
    (quality_results : List (String × QualityResult)) (extracted_data : ExtractedData)
    (format_issues intra_issues cross_issues : List String)
    (face_match : Doc) (v : ℚ)
    (h1 : "DL_EXPIRED_NT" ∉ format_issues ++ intra_issues ++ cross_issues)
    (h2 : "DL_EXPIRED_TR" ∉ format_issues ++ intra_issues ++ cross_issues)
    (hfm : dlookup extracted_data "face_match" = some face_match)
    (hv : dlookup face_match "confidence" = some (vNum v))
    (hlt : v < s.FACE_MIN_CONFIDENCE)
    (r : Response)
    (hr : make_decision s quality_results extracted_data
            format_issues intra_issues cross_issues = some r) :
    r.status = "REJECT" ∧
    r.reasons = ["Face match confidence below threshold (" ++ ratRepr v ++ ")"] := by
  have hfc := faceConf_of_num _ _ _ hfm hv
  simp only [make_decision] at hr
  rw [if_neg (fun hor => hor.elim h1 h2)] at hr
  simp only [hfc] at hr
  rw [if_pos hlt] at hr
  have h := build_response_core _ _ _ _ _ _ _ _ _ _ _ _ hr
  exact ⟨h.1, h.2.1⟩

theorem C4_witness :
    (make_decision defaultSettings []
        [("face_match", [("confidence", vNum (mkRat 1 2))])] [] [] []).map
      (fun r => (r.status, r.reasons)) =
    some ("REJECT",
      ["Face match confidence below threshold (" ++ ratRepr (mkRat 1 2) ++ ")"]) := by
  have hs : (make_decision defaultSettings []
      [("face_match", [("confidence", vNum (mkRat 1 2))])] [] [] []).isSome = true := rfl
  cases hm : make_decision defaultSettings []
      [("face_match", [("confidence", vNum (mkRat 1 2))])] [] [] [] with
  | none => rw [hm] at hs; cases hs
  | some r =>
    obtain ⟨hst, hrs⟩ := C4_face_below_threshold_rejects defaultSettings []
      [("face_match", [("confidence", vNum (mkRat 1 2))])] [] [] []
      [("confidence", vNum (mkRat 1 2))] (mkRat 1 2)
      (by simp) (by simp) rfl rfl (by decide) r hm
    simp [hst, hrs]

/-- C3: for a decoded image at or above the absolute 300-pixel floor
the gate scores `risk_score = passedCount / 5` (rounded to 2 decimals;
`passedCount` counts the five boolean checks), and tiers by the
configured thresholds; in particular the `mkRat`-form of the score is
exactly `passedCount / 5`. -/
theorem C3_quality_gate_scoring (s : Settings) (img : Image)
    (hw : 300 ≤ img.width) (hh : 300 ≤ img.height) :
    (mkRat (ImageQualityGate.passedCount s img) 5 : ℚ) =
        (ImageQualityGate.passedCount s img : ℚ) / 5 ∧
    (ImageQualityGate.evaluate s (some img)).risk_score =
        round2 (mkRat (ImageQualityGate.passedCount s img) 5) ∧
    ((mkRat (ImageQualityGate.passedCount s img) 5 : ℚ) ≥ s.QUALITY_THRESHOLD_PROCEED →
      (ImageQualityGate.evaluate s (some img)).quality = "good" ∧
      (ImageQualityGate.evaluate s (some img)).recommended_action = "proceed") ∧
    (¬(mkRat (ImageQualityGate.passedCount s img) 5 : ℚ) ≥ s.QUALITY_THRESHOLD_PROCEED →
      (mkRat (ImageQualityGate.passedCount s img) 5 : ℚ) ≥ s.QUALITY_THRESHOLD_CAUTION →
      (ImageQualityGate.evaluate s (some img)).quality = "risky" ∧
      (ImageQualityGate.evaluate s (some img)).recommended_action = "proceed_with_caution") ∧
    (¬(mkRat (ImageQualityGate.passedCount s img) 5 : ℚ) ≥ s.QUALITY_THRESHOLD_PROCEED →
      ¬(mkRat (ImageQualityGate.passedCount s img) 5 : ℚ) ≥ s.QUALITY_THRESHOLD_CAUTION →
      (ImageQualityGate.evaluate s (some img)).quality = "bad" ∧
      (ImageQualityGate.evaluate s (some img)).recommended_action = "reject") := by
  have hcond : ¬(img.width < 300 ∨ img.height < 300) := by omega
  refine ⟨?_, ?_, ?_, ?_, ?_⟩
  · rw [Rat.mkRat_eq_div]
    push_cast
    ring
  · simp only [ImageQualityGate.evaluate, if_neg hcond]
  · intro hp
    simp only [ImageQualityGate.evaluate, if_neg hcond, ge_iff_le] at *
    simp [hp]
  · intro hp hc
    simp only [ImageQualityGate.evaluate, if_neg hcond, ge_iff_le] at *
    simp [hp, hc]
  · intro hp hc
    simp only [ImageQualityGate.evaluate, if_neg hcond, ge_iff_le] at *
    simp [hp, hc]

theorem C3_witness :
    (ImageQualityGate.evaluate defaultSettings
        (some ⟨1000, 800, 150, 30, 10, 5⟩)).risk_score = mkRat 3 5 ∧
    (ImageQualityGate.evaluate defaultSettings
        (some ⟨1000, 800, 150, 30, 10, 5⟩)).quality = "risky" ∧
    (ImageQualityGate.evaluate defaultSettings
        (some ⟨1000, 800, 150, 30, 10, 5⟩)).recommended_action = "proceed_with_caution" := by
  have h := C3_quality_gate_scoring defaultSettings ⟨1000, 800, 150, 30, 10, 5⟩
    (by norm_num) (by norm_num)
  have hp : ¬(mkRat (ImageQualityGate.passedCount defaultSettings
      ⟨1000, 800, 150, 30, 10, 5⟩) 5 : ℚ) ≥ defaultSettings.QUALITY_THRESHOLD_PROCEED := by
    decide
  have hc : (mkRat (ImageQualityGate.passedCount defaultSettings
      ⟨1000, 800, 150, 30, 10, 5⟩) 5 : ℚ) ≥ defaultSettings.QUALITY_THRESHOLD_CAUTION := by
    decide
  obtain ⟨hq, ha⟩ := h.2.2.2.1 hp hc
  refine ⟨?_, hq, ha⟩
  rw [h.2.1]
  rfl

/-- C7: the DL-expiry sub-check.  Each present validity date that
parses as day-month-year and lies strictly before the current date
emits its respective code; a present but unparseable date emits no
expiry code for that field; when both validity fields are absent the
check returns exactly `[DL_EXPIRY_NOT_READABLE]`; and everything the
sub-check emits lands in `format_checks`, with no hypothesis on the DL
number (so also when it is invalid or absent). -/
theorem C7_dl_expiry_subcheck :
    (∀ (dl : Doc) (today : PyDate) (sv : String) (d : PyDate),
      strFieldT dl "validity_nt" = some sv → parseDMY sv = some d →
      dateLt d today = true → "DL_EXPIRED_NT" ∈ check_dl_expiry dl today) ∧
    (∀ (dl : Doc) (today : PyDate) (sv : String) (d : PyDate),
      strFieldT dl "validity_tr" = some sv → parseDMY sv = some d →
      dateLt d today = true → "DL_EXPIRED_TR" ∈ check_dl_expiry dl today) ∧
    (∀ (dl : Doc) (today : PyDate) (sv : String),
      strFieldT dl "validity_nt" = some sv → parseDMY sv = none →
      "DL_EXPIRED_NT" ∉ check_dl_expiry dl today) ∧
    (∀ (dl : Doc) (today : PyDate) (sv : String),
      strFieldT dl "validity_tr" = some sv → parseDMY sv = none →
      "DL_EXPIRED_TR" ∉ check_dl_expiry dl today) ∧
    (∀ (dl : Doc) (today : PyDate),
      strFieldT dl "validity_nt" = none → strFieldT dl "validity_tr" = none →
      check_dl_expiry dl today = ["DL_EXPIRY_NOT_READABLE"]) ∧
    (∀ (extracted : ExtractedData) (today : PyDate) (x : String),
      x ∈ check_dl_expiry (dlookupD extracted "driving_license" []) today →
      x ∈ format_checks extracted today) := by
  refine ⟨?_, ?_, ?_, ?_, ?_, ?_⟩
  · intro dl today sv d hnt hp hlt
    simp [check_dl_expiry, hnt, hp, hlt]
  · intro dl today sv d htr hp hlt
    simp [check_dl_expiry, htr, hp, hlt]
  · intro dl today sv hnt hp
    simp only [check_dl_expiry, hnt]
    simp [hp]
  · intro dl today sv htr hp
    simp only [check_dl_expiry, htr]
    simp [hp]
  · intro dl today hnt htr
    simp [check_dl_expiry, hnt, htr]
  · intro extracted today x hx
    simp only [format_checks, List.mem_append]
    tauto

theorem C7_witness :
    "DL_EXPIRED_NT" ∈ check_dl_expiry [("validity_nt", vStr "01-01-2020")] ⟨2026, 10, 12⟩ ∧
    "DL_EXPIRED_TR" ∉ check_dl_expiry
      [("validity_nt", vStr "01-01-2020"), ("validity_tr", vStr "31-02-2030")] ⟨2026, 10, 12⟩ ∧
    check_dl_expiry [("license_number", vStr "bogus")] ⟨2026, 10, 12⟩ =
      ["DL_EXPIRY_NOT_READABLE"] ∧
    "DL_EXPIRED_NT" ∈ format_checks
      [("driving_license", [("validity_nt", vStr "01-01-2020")])] ⟨2026, 10, 12⟩ := by
  refine ⟨?_, ?_, ?_, ?_⟩
  · exact C7_dl_expiry_subcheck.1 _ _ "01-01-2020" ⟨2020, 1, 1⟩ rfl rfl rfl
  · exact C7_dl_expiry_subcheck.2.2.2.1 _ _ "31-02-2030" rfl rfl
  · exact C7_dl_expiry_subcheck.2.2.2.2.1 _ _ rfl rfl
  · exact C7_dl_expiry_subcheck.2.2.2.2.2 _ _ _
      (C7_dl_expiry_subcheck.1 _ _ "01-01-2020" ⟨2020, 1, 1⟩ rfl rfl rfl)

/-- C8: `mask_aadhaar` on a value whose space-stripped form has
exactly 12 characters yields `"XXXX XXXX "` followed by exactly the
last 4 of those characters; the output depends only on those last 4
characters (so none of the first 8 survives); any other non-empty
input yields the sentinel `"INVALID_FORMAT"`; and the mask is not
injective, so no unmasking operation can exist. -/
theorem C8_mask_aadhaar :
    (∀ s : String, (s.data.filter (fun c => c ≠ ' ')).length = 12 →
      mask_aadhaar s =
        vStr ("XXXX XXXX " ++ (⟨(s.data.filter (fun c => c ≠ ' ')).drop 8⟩ : String))) ∧
    (∀ a b : String, (a.data.filter (fun c => c ≠ ' ')).length = 12 →
      (b.data.filter (fun c => c ≠ ' ')).length = 12 →
      (a.data.filter (fun c => c ≠ ' ')).drop 8 = (b.data.filter (fun c => c ≠ ' ')).drop 8 →
      mask_aadhaar a = mask_aadhaar b) ∧
    (∀ s : String, s ≠ "" → (s.data.filter (fun c => c ≠ ' ')).length ≠ 12 →
      mask_aadhaar s = vStr "INVALID_FORMAT") ∧
    (mask_aadhaar "111111111111" = mask_aadhaar "222211111111" ∧
      ("111111111111" : String) ≠ "222211111111") := by
  have hmask : ∀ s : String, (s.data.filter (fun c => c ≠ ' ')).length = 12 →
      mask_aadhaar s =
        vStr ("XXXX XXXX " ++ (⟨(s.data.filter (fun c => c ≠ ' ')).drop 8⟩ : String)) := by
    intro s hlen
    have hne : ¬(s.isEmpty = true) := by
      intro hemp
      rw [String.isEmpty_iff] at hemp
      subst hemp
      simp at hlen
    unfold mask_aadhaar
    rw [if_neg hne, if_neg (by rw [hlen]; simp), hlen]
  refine ⟨hmask, ?_, ?_, ?_, by decide⟩
  · intro a b ha hb hdrop
    rw [hmask a ha, hmask b hb, hdrop]
  · intro s hne hlen
    unfold mask_aadhaar
    rw [if_neg (by simpa [String.isEmpty_iff] using hne), if_pos hlen]
  · rfl

/-- C6: when no earlier rule fires (no DL-expiry issue, no
sub-threshold face confidence, no bad-quality mandatory document, no
explicit face mismatch) and a format or intra-document issue exists,
the status is REUPLOAD exactly when one of the issues lies in the
critical set, and NEEDS_REVIEW otherwise. -/
theorem C6_format_intra_tiering (s : Settings)
    (quality_results : List (String × QualityResult)) (extracted_data : ExtractedData)
    (format_issues intra_issues cross_issues : List String)
    (h1 : "DL_EXPIRED_NT" ∉ format_issues ++ intra_issues ++ cross_issues)
    (h2 : "DL_EXPIRED_TR" ∉ format_issues ++ intra_issues ++ cross_issues)
    (hface : ∀ v, faceConf extracted_data = some v → ¬v < s.FACE_MIN_CONFIDENCE)
    (hq : ∀ p ∈ quality_results, p.1 ≠ "rc" → p.2.quality ≠ "bad")
    (hsp : samePersonIsFalse extracted_data = false)
    (hne : format_issues ≠ [] ∨ intra_issues ≠ [])
    (r : Response)
    (hr : make_decision s quality_results extracted_data
            format_issues intra_issues cross_issues = some r) :
    ((format_issues ++ intra_issues).any (fun issue => issue ∈ critical_format) = true →
      r.status = "REUPLOAD" ∧ r.reasons = ["Document format or consistency issues"]) ∧
    ((format_issues ++ intra_issues).any (fun issue => issue ∈ critical_format) = false →
      r.status = "NEEDS_REVIEW" ∧ r.reasons = ["Minor document issues require review"]) := by
  rw [make_decision_to_tail s quality_results extracted_data
      format_issues intra_issues cross_issues (fun hor => hor.elim h1 h2) hface] at hr
  have hfil : quality_results.filter
      (fun p => decide (p.1 ≠ "rc" ∧ p.2.quality = "bad")) = [] := by
    rw [List.filter_eq_nil_iff]
    intro p hp
    simp only [decide_eq_true_eq, not_and]
    intro hprc
    exact hq p hp hprc
  simp only [decisionTail, hfil, List.map_nil, ne_eq, not_true_eq_false,
    if_false, hsp, Bool.false_eq_true] at hr
  rw [if_pos hne] at hr
  constructor
  · intro hcrit
    rw [if_pos hcrit] at hr
    have h := build_response_core _ _ _ _ _ _ _ _ _ _ _ _ hr
    exact ⟨h.1, h.2.1⟩
  · intro hcrit
    rw [if_neg (by rw [hcrit]; exact Bool.false_ne_true)] at hr
    have h := build_response_core _ _ _ _ _ _ _ _ _ _ _ _ hr
    exact ⟨h.1, h.2.1⟩

/-- The end-to-end aadhaar front/back mismatch scenario of C6. -/
def exMismatchData : ExtractedData :=
  [("aadhaar_front", [("aadhaar_number", vStr "1234 5678 9012")]),
   ("aadhaar_back", [("aadhaar_number", vStr "1234 5678 9013")])]

def exGoodQuality : List (String × QualityResult) :=
  [("aadhaar_front", { quality := "good", risk_score := 1, signals := [], recommended_action := "proceed" }),
   ("aadhaar_back", { quality := "good", risk_score := 1, signals := [], recommended_action := "proceed" })]

theorem C6_witness :
    intra_document_consistency exMismatchData = ["AADHAAR_FRONT_BACK_MISMATCH"] ∧
    (make_decision defaultSettings exGoodQuality exMismatchData
        (format_checks exMismatchData ⟨2026, 10, 12⟩)
        (intra_document_consistency exMismatchData) []).map (fun r => r.status) =
      some "REUPLOAD" := by
  refine ⟨rfl, ?_⟩
  have hs : (make_decision defaultSettings exGoodQuality exMismatchData
      (format_checks exMismatchData ⟨2026, 10, 12⟩)
      (intra_document_consistency exMismatchData) []).isSome = true := rfl
  cases hm : make_decision defaultSettings exGoodQuality exMismatchData
      (format_checks exMismatchData ⟨2026, 10, 12⟩)
      (intra_document_consistency exMismatchData) [] with
  | none => rw [hm] at hs; cases hs
  | some r =>
    have h := C6_format_intra_tiering defaultSettings exGoodQuality exMismatchData
      (format_checks exMismatchData ⟨2026, 10, 12⟩)
      (intra_document_consistency exMismatchData) []
      (by decide) (by decide)
      (by intro v hv; exact Option.noConfusion (hv.symm.trans rfl))
      (by decide) rfl (Or.inl (by decide)) r hm
    obtain ⟨hst, -⟩ := h.1 rfl
    simp [hst]

/-- "rc" is never put on the orchestrator's reupload list. -/
theorem rc_not_in_reupload (docs : List (String × Option QualityResult)) :
    "rc" ∉ (step1 docs).2 := by
  induction docs with
  | nil => simp [step1]
  | cons p rest ih =>
    obtain ⟨doc_type, entry⟩ := p
    simp only [step1]
    cases entry with
    | some q =>
      by_cases hbad : q.quality = "bad"
      · by_cases hrc : doc_type = "rc"
        · simp [hbad, hrc, ih]
        · simp only [if_pos hbad, if_neg hrc]
          intro hmem
          rcases List.mem_cons.mp hmem with heq | hmem2
          · exact hrc heq.symm
          · exact ih hmem2
      · simp [hbad, ih]
    | none =>
      by_cases hrc : doc_type = "rc"
      · simp [hrc, ih]
      · simp only [if_pos (by simpa using hrc)]
        intro hmem
        rcases List.mem_cons.mp hmem with heq | hmem2
        · exact hrc heq.symm
        · exact ih hmem2

/-- C5 (amended): a quality-bad mandatory (non-rc) document forces
REUPLOAD with the reason listing exactly the offending document types;
a quality-bad rc alone (all other signals clean) yields VERIFIED, and
rc never enters the orchestrator's reupload list; when the rc file
exists and the gate rates it bad, the orchestrator downgrades the
stored assessment to `recommended_action = "ignore"`, appending the
skip signal.  (A missing rc file instead keeps the synthetic bad
assessment with `recommended_action = "reject"` — see the
counterexample — but still never blocks.) -/
theorem C5_rc_quality_policy :
    (∀ (s : Settings) (quality_results : List (String × QualityResult))
        (extracted_data : ExtractedData)
        (format_issues intra_issues cross_issues : List String) (r : Response),
      "DL_EXPIRED_NT" ∉ format_issues ++ intra_issues ++ cross_issues →
      "DL_EXPIRED_TR" ∉ format_issues ++ intra_issues ++ cross_issues →
      (∀ v, faceConf extracted_data = some v → ¬v < s.FACE_MIN_CONFIDENCE) →
      quality_results.filter (fun p => p.1 ≠ "rc" ∧ p.2.quality = "bad") ≠ [] →
      make_decision s quality_results extracted_data
          format_issues intra_issues cross_issues = some r →
      r.status = "REUPLOAD" ∧
      r.reasons = ["Poor quality images: " ++ String.intercalate ", "
        ((quality_results.filter (fun p => p.1 ≠ "rc" ∧ p.2.quality = "bad")).map
          (fun p => p.1))]) ∧
    (∀ (s : Settings) (quality_results : List (String × QualityResult))
        (extracted_data : ExtractedData) (r : Response),
      (∀ v, faceConf extracted_data = some v → ¬v < s.FACE_MIN_CONFIDENCE) →
      (∀ p ∈ quality_results, p.1 ≠ "rc" → p.2.quality ≠ "bad") →
      samePersonIsFalse extracted_data = false →
      make_decision s quality_results extracted_data [] [] [] = some r →
      r.status = "VERIFIED") ∧
    (∀ (docs : List (String × Option QualityResult)) (q : QualityResult),
      q.quality = "bad" →
      step1 (("rc", some q) :: docs) =
        (("rc", rcDowngrade q) :: (step1 docs).1, (step1 docs).2)) ∧
    (∀ q : QualityResult,
      (rcDowngrade q).recommended_action = "ignore" ∧
      (rcDowngrade q).signals = q.signals ++ ["Optional RC skipped due to quality"]) ∧
    (∀ docs : List (String × Option QualityResult), "rc" ∉ (step1 docs).2) := by
  refine ⟨?_, ?_, ?_, fun q => ⟨rfl, rfl⟩, rc_not_in_reupload⟩
  · intro s qr e f i c r h1 h2 hface hfil hr
    rw [make_decision_to_tail s qr e f i c (fun hor => hor.elim h1 h2) hface] at hr
    simp only [decisionTail] at hr
    rw [if_pos (by
      intro hmap
      exact hfil (List.map_eq_nil_iff.mp hmap))] at hr
    have h := build_response_core _ _ _ _ _ _ _ _ _ _ _ _ hr
    exact ⟨h.1, h.2.1⟩
  · intro s qr e r hface hq hsp hr
    rw [make_decision_to_tail s qr e [] [] [] (by simp) hface] at hr
    have hfil : qr.filter (fun p => decide (p.1 ≠ "rc" ∧ p.2.quality = "bad")) = [] := by
      rw [List.filter_eq_nil_iff]
      intro p hp
      simp only [decide_eq_true_eq, not_and]
      intro hprc
      exact hq p hp hprc
    simp only [decisionTail, hfil, List.map_nil, ne_eq, not_true_eq_false,
      if_false, hsp, Bool.false_eq_true] at hr
    simp only [List.append_nil, List.mem_singleton, or_self, ite_false,
      List.not_mem_nil, if_false] at hr
    have h := build_response_core _ _ _ _ _ _ _ _ _ _ _ _ hr
    exact h.1
  · intro docs q hbad
    simp [step1, hbad]

/-- C5 counterexample: a missing rc file yields a quality-bad rc
assessment that is NOT downgraded — its `recommended_action` stays
"reject" and no skip signal is appended (though rc still does not
enter the reupload list). -/
theorem C5_counterexample :
    (step1 [("rc", none)]).1 = [("rc", synthMissing)] ∧
    synthMissing.quality = "bad" ∧
    synthMissing.recommended_action ≠ "ignore" ∧
    "Optional RC skipped due to quality" ∉ synthMissing.signals ∧
    (step1 [("rc", none)]).2 = [] := by
  refine ⟨rfl, rfl, by decide, by decide, rfl⟩

def exBadQ : QualityResult :=
  { quality := "bad", risk_score := 0, signals := [], recommended_action := "reject" }

theorem C5_witness :
    (make_decision defaultSettings [("selfie", exBadQ)] [] [] [] []).map
        (fun r => (r.status, r.reasons)) =
      some ("REUPLOAD", ["Poor quality images: selfie"]) ∧
    step1 [("rc", some exBadQ)] = ([("rc", rcDowngrade exBadQ)], []) := by
  constructor
  · have hs : (make_decision defaultSettings [("selfie", exBadQ)] [] [] [] []).isSome = true := rfl
    cases hm : make_decision defaultSettings [("selfie", exBadQ)] [] [] [] [] with
    | none => rw [hm] at hs; cases hs
    | some r =>
      obtain ⟨hst, hrs⟩ := C5_rc_quality_policy.1 defaultSettings [("selfie", exBadQ)]
        [] [] [] [] r (by decide) (by decide)
        (by intro v hv; exact Option.noConfusion (hv.symm.trans rfl))
        (by decide) hm
      simp only [Option.map_some', hst, hrs]
      rfl
  · exact C5_rc_quality_policy.2.2.1 [] exBadQ rfl

/-- Looking up any other document is unaffected by the plate merge. -/
theorem mergePlate_lookup_ne (e : ExtractedData) (pd : Doc) (k : String)
    (hk : k ≠ "vehicle_plate_photo") :
    dlookupD (dsetKey e "vehicle_plate_photo"
        (dictUpdate pd (plate_ocr_validation pd))) k ([] : Doc) = dlookupD e k [] := by
  rw [dlookupD, dlookup_dsetKey, if_neg (fun hh => hk hh.symm)]
  rfl

theorem mergePlate_lookup_plate (e : ExtractedData) (pd : Doc) :
    dlookupD (dsetKey e "vehicle_plate_photo"
        (dictUpdate pd (plate_ocr_validation pd))) "vehicle_plate_photo" ([] : Doc) =
      dictUpdate pd (plate_ocr_validation pd) := by
  rw [dlookupD, dlookup_dsetKey, if_pos rfl]
  rfl

/-- The plate-format clause only reads `vehicle_number`, which the
merge preserves. -/
theorem plateIssues_update_pov (pd : Doc) :
    plateIssues (dictUpdate pd (plate_ocr_validation pd)) = plateIssues pd := by
  unfold plateIssues strFieldT
  rw [dget_update_pov_vehicle_number]

theorem strFieldT_update_pov (pd : Doc) :
    strFieldT (dictUpdate pd (plate_ocr_validation pd)) "vehicle_number" =
      strFieldT pd "vehicle_number" := by
  unfold strFieldT
  rw [dget_update_pov_vehicle_number]

/-- `format_checks` commutes with the plate merge. -/
theorem format_checks_mergePlate (e : ExtractedData) (t : PyDate) :
    format_checks (mergePlate e) t = format_checks e t := by
  unfold mergePlate
  cases hp : dlookup e "vehicle_plate_photo" with
  | none => rfl
  | some pd =>
    simp only [format_checks]
    rw [mergePlate_lookup_ne e pd "aadhaar_front" (by decide),
      mergePlate_lookup_ne e pd "aadhaar_back" (by decide),
      mergePlate_lookup_ne e pd "driving_license" (by decide),
      mergePlate_lookup_ne e pd "rc" (by decide),
      mergePlate_lookup_plate e pd, plateIssues_update_pov,
      show dlookupD e "vehicle_plate_photo" ([] : Doc) = pd by rw [dlookupD, hp]; rfl]

/-- `intra_document_consistency` commutes with the plate merge. -/
theorem intra_mergePlate (e : ExtractedData) :
    intra_document_consistency (mergePlate e) = intra_document_consistency e := by
  unfold mergePlate
  cases hp : dlookup e "vehicle_plate_photo" with
  | none => rfl
  | some pd =>
    simp only [intra_document_consistency]
    rw [mergePlate_lookup_ne e pd "aadhaar_front" (by decide),
      mergePlate_lookup_ne e pd "aadhaar_back" (by decide)]

/-- `cross_document_consistency` commutes with the plate merge. -/
theorem cross_mergePlate (e : ExtractedData) :
    cross_document_consistency (mergePlate e) = cross_document_consistency e := by
  unfold mergePlate
  cases hp : dlookup e "vehicle_plate_photo" with
  | none => rfl
  | some pd =>
    simp only [cross_document_consistency]
    rw [mergePlate_lookup_ne e pd "aadhaar_front" (by decide),
      mergePlate_lookup_ne e pd "driving_license" (by decide),
      mergePlate_lookup_ne e pd "rc" (by decide),
      mergePlate_lookup_plate e pd, strFieldT_update_pov,
      show dlookupD e "vehicle_plate_photo" ([] : Doc) = pd by rw [dlookupD, hp]; rfl]

/-- C9 (amended): in the orchestrator the three consistency passes run
over the pre-merge map (step 3) and the plate-OCR tuple is merged
afterwards (step 4); but because the merge only writes fields the
checkers never read, the issue lists provably coincide with the passes
evaluated over the plate-OCR-augmented map, and the decision engine
does consume the merged map together with those lists. -/
theorem C9_checks_merge_equivalent (s : Settings)
    (quality_results : List (String × QualityResult))
    (extracted_data : ExtractedData) (face_result : Option Doc) (today : PyDate) :
    (run_pipeline_checks s quality_results extracted_data face_result today).format_issues =
      format_checks (mergePlate extracted_data) today ∧
    (run_pipeline_checks s quality_results extracted_data face_result today).intra_issues =
      intra_document_consistency (mergePlate extracted_data) ∧
    (run_pipeline_checks s quality_results extracted_data face_result today).cross_issues =
      cross_document_consistency (mergePlate extracted_data) ∧
    (run_pipeline_checks s quality_results extracted_data face_result today).mergedData =
      addFace (mergePlate extracted_data) face_result ∧
    (run_pipeline_checks s quality_results extracted_data face_result today).decision =
      make_decision s quality_results (addFace (mergePlate extracted_data) face_result)
        (format_checks extracted_data today)
        (intra_document_consistency extracted_data)
        (cross_document_consistency extracted_data) :=
  ⟨(format_checks_mergePlate extracted_data today).symm,
   (intra_mergePlate extracted_data).symm,
   (cross_mergePlate extracted_data).symm, rfl, rfl⟩

def exPlateData : ExtractedData :=
  [("vehicle_plate_photo", [("vehicle_number", vStr "MH12AB1234"), ("confidence", vNum 1)])]

/-- C9 counterexample: the map the checker passes actually observe at
step 3 is NOT the merged map — on a concrete input the merged plate
document carries the `plate_valid` key while the checker input does
not. -/
theorem C9_counterexample :
    (run_pipeline_checks defaultSettings [] exPlateData none ⟨2026, 10, 12⟩).checkerInput ≠
      (run_pipeline_checks defaultSettings [] exPlateData none ⟨2026, 10, 12⟩).mergedData := by
  intro h
  have h1 : hasKey (dlookupD (run_pipeline_checks defaultSettings [] exPlateData none
      ⟨2026, 10, 12⟩).checkerInput "vehicle_plate_photo" ([] : Doc)) "plate_valid" = false := rfl
  rw [h] at h1
  have h2 : hasKey (dlookupD (run_pipeline_checks defaultSettings [] exPlateData none
      ⟨2026, 10, 12⟩).mergedData "vehicle_plate_photo" ([] : Doc)) "plate_valid" = true := rfl
  rw [h1] at h2
  cases h2

/-- Every response `make_decision` returns was produced by
`build_response` (with the status/reason/issue payload of the rule
that fired). -/
theorem make_decision_via_build (s : Settings)
    (quality_results : List (String × QualityResult)) (extracted_data : ExtractedData)
    (format_issues intra_issues cross_issues : List String) (r : Response)
    (hr : make_decision s quality_results extracted_data
            format_issues intra_issues cross_issues = some r) :
    ∃ (st : String) (conf : ℚ) (rs iss sg : List String),
      build_response s st conf rs iss quality_results extracted_data
        format_issues intra_issues cross_issues sg = some r := by
  have tail : ∀ all : List String,
      decisionTail s quality_results extracted_data
          format_issues intra_issues cross_issues all = some r →
      ∃ (st : String) (conf : ℚ) (rs iss sg : List String),
        build_response s st conf rs iss quality_results extracted_data
          format_issues intra_issues cross_issues sg = some r := by
    intro all h
    simp only [decisionTail] at h
    split at h
    · exact ⟨_, _, _, _, _, h⟩
    · split at h
      · exact ⟨_, _, _, _, _, h⟩
      · split at h
        · split at h
          · exact ⟨_, _, _, _, _, h⟩
          · exact ⟨_, _, _, _, _, h⟩
        · split at h
          · exact ⟨_, _, _, _, _, h⟩
          · split at h
            · exact ⟨_, _, _, _, _, h⟩
            · exact ⟨_, _, _, _, _, h⟩
  simp only [make_decision] at hr
  split at hr
  · exact ⟨_, _, _, _, _, hr⟩
  · split at hr
    · split at hr
      · exact ⟨_, _, _, _, _, hr⟩
      · exact tail _ hr
    · exact tail _ hr

/-- C10 (amended): in every response the decision engine builds,
`signals.plate.plate_valid` is recomputed as the Python truthiness of
the plate document's `vehicle_number` field AFTER the response-time
string cleaning (first line, whitespace-collapsed) — for ordinary
single-line values, exactly "present and non-empty" — and is
independent of the plate-pattern match, so it disagrees with the
`plate_valid` value that `plate_ocr_validation` merged into the
document whenever the format was invalid. -/
theorem C10_plate_valid_truthiness (s : Settings)
    (quality_results : List (String × QualityResult)) (extracted_data : ExtractedData)
    (format_issues intra_issues cross_issues : List String) (r : Response)
    (hr : make_decision s quality_results extracted_data
            format_issues intra_issues cross_issues = some r) :
    r.signals.plate = plateInfoOf ((cleanExtracted extracted_data).getD []) ∧
    (∀ (cleaned : ExtractedData) (pd : Doc),
      cleanExtracted extracted_data = some cleaned →
      dlookup cleaned "vehicle_plate_photo" = some pd →
      r.signals.plate = some
        { plate_number := dget pd "vehicle_number"
          plate_valid := truthy (dget pd "vehicle_number")
          confidence := dlookupD pd "confidence" (vNum 0) }) := by
  obtain ⟨st, conf, rs, iss, sg, hb⟩ :=
    make_decision_via_build s quality_results extracted_data
      format_issues intra_issues cross_issues r hr
  have h := build_response_core _ _ _ _ _ _ _ _ _ _ _ _ hb
  refine ⟨h.2.2.2.2.1, ?_⟩
  intro cleaned pd hc hpd
  rw [h.2.2.2.2.1, hc]
  simp only [Option.getD_some, plateInfoOf, hpd, Option.map_some']

def exNlPlate : ExtractedData :=
  [("vehicle_plate_photo", [("vehicle_number", vStr "\n")])]

/-- C10 counterexample: a present, non-empty `vehicle_number` (a lone
newline) is cleaned to the empty string before the plate info is
built, so `plate_valid` is `false` even though the field was present
and non-empty — refuting "true exactly when present and non-empty". -/
theorem C10_counterexample :
    truthy (dget (dlookupD exNlPlate "vehicle_plate_photo" ([] : Doc)) "vehicle_number") = true ∧
    (make_decision defaultSettings [] exNlPlate [] [] []).map
      (fun r => r.signals.plate.map (fun pi => pi.plate_valid)) = some (some false) :=
  ⟨rfl, rfl⟩

def exBadPlate : ExtractedData :=
  [("vehicle_plate_photo", [("vehicle_number", vStr "INVALID!!")])]

theorem C10_witness :
    dget (plate_ocr_validation [("vehicle_number", vStr "INVALID!!")]) "plate_valid" =
      vBool false ∧
    (make_decision defaultSettings [] (mergePlate exBadPlate) [] [] []).map
      (fun r => r.signals.plate.map (fun pi => pi.plate_valid)) = some (some true) := by
  refine ⟨rfl, ?_⟩
  have hs : (make_decision defaultSettings [] (mergePlate exBadPlate) [] [] []).isSome = true := rfl
  cases hm : make_decision defaultSettings [] (mergePlate exBadPlate) [] [] [] with
  | none => rw [hm] at hs; cases hs
  | some r =>
    have h := (C10_plate_valid_truthiness defaultSettings [] (mergePlate exBadPlate)
      [] [] [] r hm).1
    simp only [Option.map_some', h]
    rfl

theorem C8_witness :
    mask_aadhaar "1234 5678 9012" = vStr "XXXX XXXX 9012" ∧
    mask_aadhaar "12345678" = vStr "INVALID_FORMAT" := by
  constructor
  · have h := C8_mask_aadhaar.1 "1234 5678 9012" (by decide)
    rw [h]
    rfl
  · exact C8_mask_aadhaar.2.2.1 "12345678" (by decide) (by decide)
